import Mathlib

set_option autoImplicit false

/-
  Shallow embedding of the client/server synchronization core of
  supabase-swr-entities.

  JavaScript values that flow through the embedded code are modelled by
  `JSVal`; plain objects are insertion-ordered association lists (`JSObj`)
  where object-spread is concatenation and property lookup returns the
  last binding (later spreads override earlier ones, missing properties
  read as `undefined`).
-/

inductive JSVal where
  | undef
  | null
  | bool (b : Bool)
  | num (n : Int)
  | str (s : String)
  | date (t : Nat)
deriving DecidableEq, Repr

/-- JavaScript loose equality `==` on the values the embedded code compares.
`undefined` and `null` are mutually loosely equal; same-type primitives
compare by value; `Date` objects compare by reference, so two independently
constructed dates are not equal. Exotic cross-type numeric coercions
(for example a string against a number) are not exercised by the embedded
code, whose comparisons are always between entity-id strings or missing
properties, and are modelled as not equal. -/
def jsEq : JSVal → JSVal → Bool
  | JSVal.undef, JSVal.undef => true
  | JSVal.undef, JSVal.null => true
  | JSVal.null, JSVal.undef => true
  | JSVal.null, JSVal.null => true
  | JSVal.bool a, JSVal.bool b => a == b
  | JSVal.num a, JSVal.num b => a == b
  | JSVal.str a, JSVal.str b => a == b
  | JSVal.date _, JSVal.date _ => false
  | _, _ => false

/-- A JavaScript plain object: an insertion-ordered list of property
bindings. Object literals and spreads concatenate binding lists in source
order; a later binding for the same key overrides an earlier one. -/
abbrev JSObj := List (String × JSVal)

/-- JavaScript property read `o[k]`: the last binding of `k` wins
(later spreads override earlier ones); a missing property reads as
`undefined`. -/
def objGet (o : JSObj) (k : String) : JSVal :=
  match o.reverse.find? (fun p => p.1 == k) with
  | some p => p.2
  | none => JSVal.undef

/-- Whether the object has an own property named `k` (regardless of its
value, which may itself be `undefined`). -/
def hasOwn (o : JSObj) (k : String) : Bool :=
  o.any (fun p => p.1 == k)

/-
  Path/Key Builder — `apiPath` (src/src/client/client-utils, also
  duplicated in src/unnamed/part_001 and src/src/client/use-entity-hooks.js).
-/

/-- Serialization performed by `new URLSearchParams(params).toString()`:
the given pairs are emitted as `k=v` joined by `&`, in insertion order.
`URLSearchParams` does not reorder or canonicalize the pairs.
Percent-encoding of reserved characters is not modelled; the embedded
call sites pass plain alphanumeric keys and values. -/
def urlSearchParamsToString (params : List (String × String)) : String :=
  String.intercalate "&" (params.map (fun p => p.1 ++ "=" ++ p.2))

/-- Embedding of `apiPath(table, id, params)`:
`if (!table) return null` (so a missing or empty table yields `null`),
`table.replaceAll('_', '-')` maps each underscore character to a hyphen,
an id (when present and non-empty) is appended as a path segment, and
params (when present, even if empty) are appended as `?` followed by the
`URLSearchParams` serialization. -/
def apiPath (table : Option String) (id : Option String)
    (params : Option (List (String × String))) : Option String :=
  match table with
  | none => none
  | some t =>
    if t.isEmpty then none
    else
      let route := String.mk (t.data.map (fun c => if c = '_' then '-' else c))
      let path0 := "/api/" ++ route
      let path1 :=
        match id with
        | some i => if i.isEmpty then path0 else path0 ++ "/" ++ i
        | none => path0
      match params with
      | some ps => some (path1 ++ "?" ++ urlSearchParamsToString ps)
      | none => some path1

/-
  Server GET collection branch — `entitiesRoute` (src/src/entities-route.js,
  GET branch): builds the collection body from the `getEntities` result.
-/

structure GetEntitiesResult where
  entities : List JSObj
  count : Nat
  limit : Nat
  offset : Nat
deriving DecidableEq, Repr

structure CollectionBody where
  data : List JSObj
  count : Nat
  limit : Nat
  offset : Nat
  has_more : Bool
deriving DecidableEq, Repr

/-- Embedding of the successful GET branch of `entitiesRoute`:
`{ data: entities, count, limit, offset, has_more: offset + entities.length < count }`. -/
def entitiesRouteGetBody (r : GetEntitiesResult) : CollectionBody :=
  { data := r.entities
    count := r.count
    limit := r.limit
    offset := r.offset
    has_more := r.offset + r.entities.length < r.count }

/-
  Collection Cache — `useEntities` (src/src/client/use-entity-hooks.ts).
  The page value held under the collection key is an object
  `{ data, count, limit, offset, has_more }`; `data` is an array of
  entity objects.
-/

structure PageObj where
  data : List JSObj
  count : JSVal
  limit : JSVal
  offset : JSVal
  has_more : JSVal
deriving DecidableEq, Repr

/-- Modelled from the spec: the framework-level mutate-with-rollback
primitive (the reactive-cache library is an external collaborator, not
part of this repository). Per the spec: the optimistic value is written
to the cache before the remote call resolves; on success the cache is
rebuilt by `populateCache` from the authoritative remote result applied
to the cache value at response time; on failure the pre-mutation
snapshot is restored automatically and the error is rethrown to the
caller of the primitive. -/
def swrMutate {α β ε : Type} (current : α) (remote : Except ε β)
    (optimisticData : α → α) (populateCache : β → α → α) : α × Except ε β :=
  match remote with
  | Except.ok b => (populateCache b (optimisticData current), Except.ok b)
  | Except.error e => (current, Except.error e)

namespace UseEntities

/-- JavaScript property read `.count` on an Array value: `Array.prototype`
defines `length` but no `count` property, so the access evaluates to
`undefined`. (`appendEntity` and `removeEntity` in use-entity-hooks.ts
read `.count` off the `data` array.) -/
def arrayCountProp (_ : List JSObj) : JSVal := JSVal.undef

/-- Embedding of `removeEntity(data, id)` (use-entity-hooks.ts lines
158-166): filters entities with `entity.id != id` out of the page and
sets `count` to `filteredEntities.count` (a property read on the
filtered array). -/
def removeEntity (d : PageObj) (id : JSVal) : PageObj :=
  let filteredEntities := d.data.filter (fun e => !(jsEq (objGet e "id") id))
  { d with data := filteredEntities, count := arrayCountProp filteredEntities }

/-- Embedding of `appendEntity(data, newEntity)` (use-entity-hooks.ts
lines 148-156): removes any entity with the new entity's id, pushes the
new entity onto the (mutable) `data` array, and sets `count` to
`filteredData.data.count` (a property read on that same array after the
push). -/
def appendEntity (d : PageObj) (newEntity : JSObj) : PageObj :=
  let filteredData := removeEntity d (objGet newEntity "id")
  let pushedData := filteredData.data ++ [newEntity]
  { filteredData with data := pushedData, count := arrayCountProp pushedData }

/-- Embedding of `useEntities.update(id, fields)` (use-entity-hooks.ts
lines 233-274) over the mutate-with-rollback primitive. The optimistic
transform finds the entity with `e.id == id` in the current page (when
absent it returns the page unchanged — in the source, the stale render
snapshot `data`, which in this sequential model is the same value) and
appends `{ updated_at: new Date(), ...entity, ...fields }`; on success
`populateCache` appends the authoritative server entity. The `try/catch`
in the source converts the rethrown failure into the returned
`{ error }` value, which the second component records. -/
def update (current : PageObj) (id : String) (fields : JSObj) (now : Nat)
    (remote : Except String JSObj) : PageObj × Except String JSObj :=
  swrMutate current remote
    (fun currentData =>
      match currentData.data.find? (fun e => jsEq (objGet e "id") (JSVal.str id)) with
      | none => currentData
      | some entity =>
        appendEntity currentData ([("updated_at", JSVal.date now)] ++ entity ++ fields))
    (fun entity currentData => appendEntity currentData entity)

end UseEntities

/-
  Entity Cache delete — `useDeleteEntity` (src/src/client/use-entity-helpers.js
  lines 91-110). The single-entity cache slot holds an entity object or
  the JavaScript `null` written by the delete (modelled as `none`).
-/

/-- Embedding of `useDeleteEntity`: the mutate-with-rollback primitive is
invoked with `optimisticData: null` and a remote function that awaits
`deleteAPI` and returns `null`; `populateCache` is the primitive's
default, which writes the remote function's result. The `catch` in the
source returns `{ error }`, recorded by the second component; success
returns `{}` (no error). -/
def deleteEntityRun (snapshot : Option JSObj) (remote : Except String Unit) :
    Option JSObj × Option String :=
  let fn : Except String (Option JSObj) := remote.map (fun _ => none)
  let step := swrMutate snapshot fn (fun _ => none) (fun r _ => r)
  match step.2 with
  | Except.ok _ => (step.1, none)
  | Except.error e => (step.1, some e)

/-
  Entity Cache create — `useCreateEntity` (src/src/client/use-entity-helpers.js
  lines 21-40).
-/

namespace UseCreateEntity

/-- Value of `session?.user.id`: the user id when a session exists,
`undefined` otherwise. -/
def sessionUserId : Option String → JSVal
  | some u => JSVal.str u
  | none => JSVal.undef

/-- Embedding of the object literal
`{ id: v4(), ...entity, user_id: session?.user.id, locale: params?.lang }`
built by `useCreateEntity`: a fresh UUID binding, then the caller's
entity spread over it, then explicit `user_id` and `locale` bindings
after the spread. This object is both posted to the server
(`postAPI(url, newEntity)`) and used as the base of the optimistic
snapshot. -/
def newEntityFor (freshId : String) (session : Option String)
    (entity : JSObj) (lang : JSVal) : JSObj :=
  [("id", JSVal.str freshId)] ++ entity
    ++ [("user_id", sessionUserId session), ("locale", lang)]

/-- Embedding of the optimistic snapshot
`{ ...newEntity, ...optimisticFields }` passed as `optimisticData`. -/
def optimisticCreate (newEntity optimisticFields : JSObj) : JSObj :=
  newEntity ++ optimisticFields

end UseCreateEntity

/-
  Infinite Collection Cache — `useInfiniteEntities`
  (src/src/client/use-entity-hooks.ts lines 330-574). The cache value is
  an ordered list of pages.
-/

namespace UseInfiniteEntities

/-- Embedding of `removeEntity(data, id)` (use-entity-hooks.ts lines
412-418): filters the entity with the given id out of every page's
`data`, leaving the other page fields untouched. -/
def removeEntity (pages : List PageObj) (id : JSVal) : List PageObj :=
  pages.map (fun page =>
    { page with data := page.data.filter (fun e => !(jsEq (objGet e "id") id)) })

/-- Embedding of `appendEntity(data, newEntity)` (use-entity-hooks.ts
lines 394-400): removes the entity's id from every page via
`removeEntity`, then `filteredPages[0].data.push(newEntity)`. On an
empty page list `filteredPages[0]` is `undefined` and the `.data` access
throws a TypeError; that case is modelled as `none`. -/
def appendEntity (pages : List PageObj) (newEntity : JSObj) :
    Option (List PageObj) :=
  match removeEntity pages (objGet newEntity "id") with
  | [] => none
  | p0 :: rest => some ({ p0 with data := p0.data ++ [newEntity] } :: rest)

end UseInfiniteEntities

/-
  Infinite page key loader — `getKey` (src/src/client/api-methods.ts
  lines 59-72, identical logic in src/src/client/use-cache-hooks.js lines
  52-63). The previous page body is the fetched collection JSON; its
  `data` property is `none` when absent (a body without a `data` array),
  otherwise the array, possibly empty.
-/

structure PrevPageData where
  data : Option (List JSObj)
  count : Nat
  limit : Nat
  offset : Nat
  has_more : Bool
deriving DecidableEq, Repr

namespace UseInfiniteCache

/-- Embedding of the `getKey` page-key loader:
`if (!url) return null`;
`if (previousPageData && !previousPageData.data) return null`
(note `!previousPageData.data` is true only when the `data` property is
missing or null — an empty array is truthy);
`if (pageIndex === 0) return url`;
otherwise `const { limit } = previousPageData` (a TypeError when
`previousPageData` is `undefined`, modelled as `Except.error`) and
`return url + "&offset=" + pageIndex * limit`. -/
def getKey (url : Option String) (pageIndex : Nat)
    (previousPageData : Option PrevPageData) : Except String (Option String) :=
  match url with
  | none => Except.ok none
  | some u =>
    if u.isEmpty then Except.ok none
    else
      match previousPageData with
      | some prev =>
        if prev.data.isNone then Except.ok none
        else if pageIndex == 0 then Except.ok (some u)
        else Except.ok (some (u ++ "&offset=" ++ toString (pageIndex * prev.limit)))
      | none =>
        if pageIndex == 0 then Except.ok (some u)
        else Except.error "TypeError"

end UseInfiniteCache

/-
  Peer Mesh Transport — `usePeers` (src/src/client/use-peers.js).
-/

/-- A row of the `peers` collection as the mesh consults it: the peer
transport id and the owning user id (which may be absent). -/
structure PeerEnt where
  id : String
  user_id : Option String
deriving DecidableEq, Repr

/-- The mesh's per-room connection bookkeeping: `connections` holds the
remote peer ids of the live `DataConnection` objects in
`connectionsRef.current`, `attempts` the candidate ids currently in
`connectionAttempts.current`. -/
structure MeshState where
  connections : List String
  attempts : List String
deriving DecidableEq, Repr

namespace UsePeers

/-- Value of `allowedUsers.includes(u)` for a possibly-missing user id:
`includes(undefined)` is false on a string array. -/
def includesUser (allowed : List String) : Option String → Bool
  | some u => allowed.contains u
  | none => false

/-- The fixed window of the `setTimeout` that clears a connection
attempt record (use-peers.js lines 128-131). -/
def connectionAttemptTimeoutMs : Nat := 10000

/-- Body of that timeout (use-peers.js line 130):
`connectionAttempts.current = connectionAttempts.current.filter(id => id != connection.peer)`.
Only the attempts list is filtered; the connection list is untouched and
no connection is closed or destroyed. -/
def clearAttempt (st : MeshState) (pid : String) : MeshState :=
  { st with attempts := st.attempts.filter (fun a => a != pid) }

/-- One candidate of the reconciliation pass (use-peers.js lines
205-214): skip self, skip candidates with a live connection, skip
candidates already in the attempts list, skip candidates failing the
allow-list; otherwise record the attempt and initiate
`peer.connect(p.id)` (collected in the second component). -/
def connectStep (selfId : String) (allowed : List String)
    (acc : MeshState × List String) (p : PeerEnt) : MeshState × List String :=
  if p.id == selfId then acc
  else if acc.1.connections.contains p.id then acc
  else if acc.1.attempts.contains p.id then acc
  else if !(allowed.contains "*") && !(includesUser allowed p.user_id) then acc
  else ({ acc.1 with attempts := acc.1.attempts ++ [p.id] }, acc.2 ++ [p.id])

/-- Embedding of the `peers.forEach` reconciliation pass: folds
`connectStep` over the candidate roster, returning the updated state and
the list of candidate ids for which an outbound connection was
initiated. -/
def connectPass (selfId : String) (allowed : List String) (st : MeshState)
    (roster : List PeerEnt) : MeshState × List String :=
  roster.foldl (connectStep selfId allowed) (st, [])

/-- Embedding of `getPeer(connection)` (use-peers.js lines 53-57):
resolves the sender's peer row by `peer.id == connection.peer`. -/
def getPeer (peers : List PeerEnt) (connPeer : String) : Option PeerEnt :=
  peers.find? (fun pr => pr.id == connPeer)

/-- An element of the pending-data queue: the payload and the remote peer
id of the connection it arrived on. -/
structure QueueItem where
  connPeer : String
  payload : JSVal
deriving DecidableEq, Repr

/-- Outcome of the data-queue handler for one queued message. -/
inductive DataOutcome where
  | requeued (item : QueueItem)
  | closed
  | delivered (payload : JSVal) (peer : PeerEnt)
deriving DecidableEq, Repr

/-- Embedding of the data-queue handler body (use-peers.js lines 60-80)
for one queued item: if the sender's peer row is not yet resolvable the
item is pushed back onto the queue; if
`!allowedUsers.includes("*") && !allowedUsers.includes(peer.user_id)`
the connection is closed and the handler returns before `onData`;
otherwise `onData(data, connection, peer)` is invoked. -/
def processQueueItem (peers : List PeerEnt) (allowed : List String)
    (item : QueueItem) : DataOutcome :=
  match getPeer peers item.connPeer with
  | none => DataOutcome.requeued item
  | some pr =>
    if !(allowed.contains "*") && !(includesUser allowed pr.user_id) then
      DataOutcome.closed
    else
      DataOutcome.delivered item.payload pr

end UsePeers

/-
  Helper lemmas about the JavaScript object model.
-/

theorem objGet_append (a b : JSObj) (k : String) :
    objGet (a ++ b) k = if hasOwn b k then objGet b k else objGet a k := by
  unfold objGet hasOwn
  rw [List.reverse_append, List.find?_append]
  cases hb : b.reverse.find? (fun p => p.1 == k) with
  | some p =>
    have hmem := List.mem_of_find?_eq_some hb
    have hp := List.find?_some hb
    have hany : b.any (fun p => p.1 == k) = true :=
      List.any_eq_true.mpr ⟨p, List.mem_reverse.mp hmem, hp⟩
    simp [hany, hb, Option.or]
  | none =>
    have hany : b.any (fun p => p.1 == k) = false := by
      rw [List.any_eq_false]
      intro x hx
      simpa using List.find?_eq_none.mp hb x (List.mem_reverse.mpr hx)
    simp [hany, hb, Option.or]

theorem hasOwn_append (a b : JSObj) (k : String) :
    hasOwn (a ++ b) k = (hasOwn a k || hasOwn b k) := by
  simp [hasOwn]

theorem removeEntity_pages_countP_zero (pages : List PageObj) (idv : JSVal) :
    ∀ q ∈ UseInfiniteEntities.removeEntity pages idv,
      q.data.countP (fun x => jsEq (objGet x "id") idv) = 0 := by
  intro q hq
  unfold UseInfiniteEntities.removeEntity at hq
  rw [List.mem_map] at hq
  obtain ⟨pg, hpg, rfl⟩ := hq
  rw [List.countP_eq_zero]
  intro x hx
  have hx2 := (List.mem_filter.mp hx).2
  simpa using hx2

theorem connectPass_pending_invariant (selfId : String) (allowed : List String)
    (pid : String) (roster : List PeerEnt) :
    ∀ (acc : MeshState × List String),
      pid ∈ acc.1.attempts → pid ∉ acc.2 →
      pid ∈ (roster.foldl (UsePeers.connectStep selfId allowed) acc).1.attempts
      ∧ pid ∉ (roster.foldl (UsePeers.connectStep selfId allowed) acc).2 := by
  induction roster with
  | nil => intro acc h1 h2; exact ⟨h1, h2⟩
  | cons p ps ih =>
    intro acc h1 h2
    rw [List.foldl_cons]
    have hkeep : pid ∈ (UsePeers.connectStep selfId allowed acc p).1.attempts
        ∧ pid ∉ (UsePeers.connectStep selfId allowed acc p).2 := by
      unfold UsePeers.connectStep
      split_ifs with hself hconn hatt hallow
      · exact ⟨h1, h2⟩
      · exact ⟨h1, h2⟩
      · exact ⟨h1, h2⟩
      · exact ⟨h1, h2⟩
      · have hnotmem : p.id ∉ acc.1.attempts := by simpa using hatt
        have hne : pid ≠ p.id := fun he => hnotmem (he ▸ h1)
        refine ⟨List.mem_append_left _ h1, fun hmem => ?_⟩
        rcases List.mem_append.mp hmem with hm | hm
        · exact h2 hm
        · exact hne (List.mem_singleton.mp hm)
    exact ih (UsePeers.connectStep selfId allowed acc p) hkeep.1 hkeep.2

/-- C7 — the server-side GET collection response satisfies
`has_more == (offset + len(data) < count)` for every result, and in
particular it is `true` for `count = 25, offset = 10, data.length = 10`
and `false` for `count = 25, offset = 20, data.length = 5`. -/
theorem entitiesRoute_has_more_invariant :
    (∀ r : GetEntitiesResult,
      (entitiesRouteGetBody r).has_more
        = decide (r.offset + (entitiesRouteGetBody r).data.length < r.count))
    ∧ (entitiesRouteGetBody
        { entities := List.replicate 10 [], count := 25, limit := 10, offset := 10 }).has_more
        = true
    ∧ (entitiesRouteGetBody
        { entities := List.replicate 5 [], count := 25, limit := 10, offset := 20 }).has_more
        = false :=
  ⟨fun _ => rfl, by decide, by decide⟩

/-- C1 — for every Collection Cache page and every `update` call whose
remote PATCH fails, the page snapshot after the operation equals the
pre-mutation snapshot exactly (all of `data`, `count`, `limit`,
`offset`, `has_more` restored, by equality of the whole page value), and
the error is returned in the result component rather than thrown. -/
theorem useEntities_update_failure_rolls_back (current : PageObj) (id : String)
    (fields : JSObj) (now : Nat) (err : String) :
    UseEntities.update current id fields now (Except.error err)
      = (current, Except.error err) := rfl

/-- C2 — evaluation of the optimistic page edits at a concrete page:
`appendEntity` and `removeEntity` set the page's `count` to the value of
the nonexistent `count` property of the `data` array, i.e. `undefined`,
not to the length of the edited `data` array. -/
theorem appendEntity_count_is_undefined :
    (UseEntities.appendEntity
        { data := [[("id", JSVal.str "a")]], count := JSVal.num 1,
          limit := JSVal.num 100, offset := JSVal.num 0, has_more := JSVal.bool false }
        [("id", JSVal.str "b")]).count = JSVal.undef
    ∧ (UseEntities.appendEntity
        { data := [[("id", JSVal.str "a")]], count := JSVal.num 1,
          limit := JSVal.num 100, offset := JSVal.num 0, has_more := JSVal.bool false }
        [("id", JSVal.str "b")]).data.length = 2
    ∧ (UseEntities.appendEntity
        { data := [[("id", JSVal.str "a")]], count := JSVal.num 1,
          limit := JSVal.num 100, offset := JSVal.num 0, has_more := JSVal.bool false }
        [("id", JSVal.str "b")]).count ≠ JSVal.num 2
    ∧ (UseEntities.removeEntity
        { data := [[("id", JSVal.str "a")]], count := JSVal.num 1,
          limit := JSVal.num 100, offset := JSVal.num 0, has_more := JSVal.bool false }
        (JSVal.str "a")).count = JSVal.undef
    ∧ (UseEntities.removeEntity
        { data := [[("id", JSVal.str "a")]], count := JSVal.num 1,
          limit := JSVal.num 100, offset := JSVal.num 0, has_more := JSVal.bool false }
        (JSVal.str "a")).data.length = 0 := by
  refine ⟨rfl, rfl, by decide, rfl, rfl⟩

/-- C3 counterexample — two params mappings holding the same key-value
pairs in different insertion orders produce different keys, because
`URLSearchParams` serializes in insertion order. -/
theorem apiPath_param_order_counterexample :
    apiPath (some "todos") none (some [("a", "1"), ("b", "2")])
      ≠ apiPath (some "todos") none (some [("b", "2"), ("a", "1")]) := by decide

/-- C3 amended — `apiPath` is a pure function, so calling it twice on the
same inputs yields identical keys; but the key serializes the params in
their insertion order (underscores in the table become hyphens), so the
two permutations of the same mapping yield the two distinct keys shown. -/
theorem apiPath_deterministic_but_order_sensitive :
    (∀ (t i : Option String) (p : Option (List (String × String))),
      apiPath t i p = apiPath t i p)
    ∧ apiPath (some "todos") none (some [("a", "1"), ("b", "2")])
        = some "/api/todos?a=1&b=2"
    ∧ apiPath (some "todos") none (some [("b", "2"), ("a", "1")])
        = some "/api/todos?b=2&a=1"
    ∧ apiPath (some "user_profiles") none none = some "/api/user-profiles" :=
  ⟨fun _ _ _ => rfl, by decide, by decide, by decide⟩

/-- C4 — evaluation of the page-key loader at a terminal page: for a
previous page with `has_more = false` and `data` an empty (or non-empty)
array, `getKey` does not return the `null` halt sentinel but a key for
the next page, because `!previousPageData.data` is false on any array
and `has_more` is never consulted. -/
theorem getKey_terminal_page_not_halted :
    UseInfiniteCache.getKey (some "/api/todos?limit=10") 1
        (some { data := some [], count := 0, limit := 10, offset := 0, has_more := false })
      = Except.ok (some "/api/todos?limit=10&offset=10")
    ∧ UseInfiniteCache.getKey (some "/api/todos?limit=10") 1
        (some { data := some [[("id", JSVal.str "a")]], count := 1, limit := 10,
                offset := 0, has_more := false })
      = Except.ok (some "/api/todos?limit=10&offset=10")
    ∧ (Except.ok (some "/api/todos?limit=10&offset=10") : Except String (Option String))
      ≠ Except.ok none := by
  refine ⟨rfl, rfl, fun hcontra => ?_⟩
  cases Except.ok.inj hcontra

/-- C5 — while a candidate peer id is recorded in the attempts set, a
reconciliation pass initiates no outbound connection to it; the
attempt-timeout body removes the record from the attempts set only,
leaving the connection set untouched, and the timeout window is the
fixed 10 seconds. -/
theorem mesh_attempt_dedup_and_timeout (selfId : String) (allowed : List String)
    (st : MeshState) (roster : List PeerEnt) (pid : String)
    (h : pid ∈ st.attempts) :
    pid ∉ (UsePeers.connectPass selfId allowed st roster).2
    ∧ pid ∉ (UsePeers.clearAttempt st pid).attempts
    ∧ (UsePeers.clearAttempt st pid).connections = st.connections
    ∧ UsePeers.connectionAttemptTimeoutMs = 10000 := by
  refine ⟨?_, ?_, rfl, rfl⟩
  · exact (connectPass_pending_invariant selfId allowed pid roster (st, []) h
      (by simp)).2
  · intro hmem
    have := (List.mem_filter.mp hmem).2
    simp at this

/-- Instantiation of the mesh dedup/timeout theorem at a concrete state
whose attempts set already records the candidate. -/
theorem mesh_attempt_dedup_and_timeout_witness :
    "p2" ∉ (UsePeers.connectPass "p1" ["*"]
        { connections := [], attempts := ["p2"] }
        [{ id := "p2", user_id := some "u1" }]).2
    ∧ "p2" ∉ (UsePeers.clearAttempt
        { connections := [], attempts := ["p2"] } "p2").attempts
    ∧ (UsePeers.clearAttempt { connections := [], attempts := ["p2"] } "p2").connections
      = ({ connections := [], attempts := ["p2"] } : MeshState).connections
    ∧ UsePeers.connectionAttemptTimeoutMs = 10000 :=
  mesh_attempt_dedup_and_timeout "p1" ["*"]
    { connections := [], attempts := ["p2"] }
    [{ id := "p2", user_id := some "u1" }] "p2" (by decide)

/-- C6 — a queued inbound message whose resolved sender fails the
allow-list check (no wildcard and the sender's user id not listed)
results in the connection being closed, and in particular is never
delivered to the caller-supplied data handler. -/
theorem unauthorized_data_closed_not_delivered (peers : List PeerEnt)
    (allowed : List String) (item : UsePeers.QueueItem) (pr : PeerEnt)
    (h1 : UsePeers.getPeer peers item.connPeer = some pr)
    (h2 : allowed.contains "*" = false)
    (h3 : UsePeers.includesUser allowed pr.user_id = false) :
    UsePeers.processQueueItem peers allowed item = UsePeers.DataOutcome.closed
    ∧ ∀ (d : JSVal) (q : PeerEnt),
        UsePeers.processQueueItem peers allowed item
          ≠ UsePeers.DataOutcome.delivered d q := by
  have hmain : UsePeers.processQueueItem peers allowed item
      = UsePeers.DataOutcome.closed := by
    unfold UsePeers.processQueueItem
    rw [h1]
    have hstar : "*" ∉ allowed := by simpa using h2
    simp [h3, hstar]
  refine ⟨hmain, fun d q hcontra => ?_⟩
  rw [hmain] at hcontra
  cases hcontra

/-- Instantiation of the allow-list enforcement theorem: allow-list
`["u1"]`, sender's user id `"u2"`. -/
theorem unauthorized_data_closed_witness :
    UsePeers.processQueueItem [{ id := "c1", user_id := some "u2" }] ["u1"]
        { connPeer := "c1", payload := JSVal.str "m" }
      = UsePeers.DataOutcome.closed
    ∧ ∀ (d : JSVal) (q : PeerEnt),
        UsePeers.processQueueItem [{ id := "c1", user_id := some "u2" }] ["u1"]
            { connPeer := "c1", payload := JSVal.str "m" }
          ≠ UsePeers.DataOutcome.delivered d q :=
  unauthorized_data_closed_not_delivered _ _ _ { id := "c1", user_id := some "u2" }
    (by decide) (by decide) (by decide)

/-- C8 — whenever `appendEntity` on an Infinite Collection page sequence
succeeds, the resulting sequence holds at most one entity whose id is
loosely equal to the appended entity's id, across all pages. -/
theorem infinite_appendEntity_unique_id (pages : List PageObj) (e : JSObj)
    (res : List PageObj)
    (h : UseInfiniteEntities.appendEntity pages e = some res) :
    ((res.map PageObj.data).flatten).countP
      (fun x => jsEq (objGet x "id") (objGet e "id")) ≤ 1 := by
  unfold UseInfiniteEntities.appendEntity at h
  cases hrm : UseInfiniteEntities.removeEntity pages (objGet e "id") with
  | nil => rw [hrm] at h; cases h
  | cons p0 rest =>
    rw [hrm] at h
    injection h with h2
    subst h2
    have h0 : p0.data.countP (fun x => jsEq (objGet x "id") (objGet e "id")) = 0 := by
      refine removeEntity_pages_countP_zero pages (objGet e "id") p0 ?_
      rw [hrm]
      exact List.mem_cons_self _ _
    have hrest : ((rest.map PageObj.data).flatten).countP
        (fun x => jsEq (objGet x "id") (objGet e "id")) = 0 := by
      rw [List.countP_eq_zero]
      intro x hx
      rw [List.mem_flatten] at hx
      obtain ⟨l, hl, hxl⟩ := hx
      rw [List.mem_map] at hl
      obtain ⟨q, hq, rfl⟩ := hl
      have hz := removeEntity_pages_countP_zero pages (objGet e "id") q
        (by rw [hrm]; exact List.mem_cons_of_mem _ hq)
      exact (List.countP_eq_zero.mp hz) x hxl
    have he : ([e] : List JSObj).countP
        (fun x => jsEq (objGet x "id") (objGet e "id")) ≤ 1 :=
      le_trans (List.countP_le_length _) (by simp)
    simp only [List.map_cons, List.flatten_cons, List.countP_append]
    rw [hrest]
    show p0.data.countP _ + _ + 0 ≤ 1
    rw [h0]
    simpa using he

/-- Instantiation of the no-duplicate-ids theorem at a two-entity page
sequence that already contains the appended id. -/
theorem infinite_appendEntity_unique_id_witness :
    ((([{ data := [[("id", JSVal.str "b")], [("id", JSVal.str "a")]],
          count := JSVal.num 2, limit := JSVal.num 10, offset := JSVal.num 0,
          has_more := JSVal.bool false }] : List PageObj).map PageObj.data).flatten).countP
      (fun x => jsEq (objGet x "id") (objGet [("id", JSVal.str "a")] "id")) ≤ 1 :=
  infinite_appendEntity_unique_id
    [{ data := [[("id", JSVal.str "b")], [("id", JSVal.str "a")]],
       count := JSVal.num 2, limit := JSVal.num 10, offset := JSVal.num 0,
       has_more := JSVal.bool false }]
    [("id", JSVal.str "a")]
    [{ data := [[("id", JSVal.str "b")], [("id", JSVal.str "a")]],
       count := JSVal.num 2, limit := JSVal.num 10, offset := JSVal.num 0,
       has_more := JSVal.bool false }]
    (by decide)

/-- C9 counterexample — a concrete failed delete: the cache slot ends at
the pre-mutation snapshot (the optimistic removal does not stand), so
the claim that the snapshot is not restored is false; the error is
returned to the caller. -/
theorem deleteEntity_failure_restores_snapshot :
    (deleteEntityRun (some [("id", JSVal.str "a")]) (Except.error "network")).1
      = some [("id", JSVal.str "a")]
    ∧ (deleteEntityRun (some [("id", JSVal.str "a")]) (Except.error "network")).1
      ≠ none
    ∧ (deleteEntityRun (some [("id", JSVal.str "a")]) (Except.error "network")).2
      = some "network" := by
  refine ⟨rfl, by decide, rfl⟩

/-- C9 amended — for every Entity Cache delete whose remote DELETE call
fails, the mutate-with-rollback primitive restores the
optimistically-removed snapshot to its pre-mutation value (the same
rollback as update/create, no asymmetry in this code path), and the
error is returned to the caller. -/
theorem deleteEntity_failure_rolls_back (snapshot : Option JSObj) (err : String) :
    deleteEntityRun snapshot (Except.error err) = (snapshot, some err) := rfl

/-- C10 — the entity built by `useCreateEntity` (posted to the server and
spread into the optimistic snapshot) carries the session's user id in
`user_id`, overriding any `user_id` in the caller's input entity; the
optimistic snapshot keeps that user id whenever the separate
`optimisticFields` argument does not itself bind `user_id`; a
caller-supplied `id` property is preserved, and the fresh UUID becomes
the id exactly when the input entity has no own `id` property. -/
theorem createEntity_user_id_overridden_id_preserved (freshId u : String)
    (entity fields : JSObj) (lang : JSVal)
    (hfields : hasOwn fields "user_id" = false) :
    objGet (UseCreateEntity.newEntityFor freshId (some u) entity lang) "user_id"
      = JSVal.str u
    ∧ objGet (UseCreateEntity.optimisticCreate
        (UseCreateEntity.newEntityFor freshId (some u) entity lang) fields) "user_id"
      = JSVal.str u
    ∧ (hasOwn entity "id" = true →
        objGet (UseCreateEntity.newEntityFor freshId (some u) entity lang) "id"
          = objGet entity "id")
    ∧ (hasOwn entity "id" = false →
        objGet (UseCreateEntity.newEntityFor freshId (some u) entity lang) "id"
          = JSVal.str freshId) := by
  have hsuffu : hasOwn [("user_id", UseCreateEntity.sessionUserId (some u)),
      ("locale", lang)] "user_id" = true := rfl
  have hsuffid : hasOwn [("user_id", UseCreateEntity.sessionUserId (some u)),
      ("locale", lang)] "id" = false := rfl
  have hvalu : objGet [("user_id", UseCreateEntity.sessionUserId (some u)),
      ("locale", lang)] "user_id" = JSVal.str u := rfl
  have hg1 : objGet (UseCreateEntity.newEntityFor freshId (some u) entity lang)
      "user_id" = JSVal.str u := by
    unfold UseCreateEntity.newEntityFor
    rw [objGet_append, if_pos hsuffu]
    exact hvalu
  refine ⟨hg1, ?_, ?_, ?_⟩
  · unfold UseCreateEntity.optimisticCreate
    rw [objGet_append, if_neg (by simp [hfields])]
    exact hg1
  · intro hid
    unfold UseCreateEntity.newEntityFor
    rw [objGet_append, if_neg (by simp [hsuffid]), objGet_append, if_pos hid]
  · intro hid
    unfold UseCreateEntity.newEntityFor
    rw [objGet_append, if_neg (by simp [hsuffid]), objGet_append,
      if_neg (by simp [hid])]
    rfl

/-- Instantiation of the create-entity theorem: the caller supplies both
an `id` and a `user_id`; the id survives, the user id is replaced by the
session's. -/
theorem createEntity_user_id_overridden_witness :
    objGet (UseCreateEntity.newEntityFor "f1" (some "u1")
        [("id", JSVal.str "e1"), ("user_id", JSVal.str "u2")] JSVal.undef) "user_id"
      = JSVal.str "u1"
    ∧ objGet (UseCreateEntity.optimisticCreate
        (UseCreateEntity.newEntityFor "f1" (some "u1")
          [("id", JSVal.str "e1"), ("user_id", JSVal.str "u2")] JSVal.undef)
        [("x", JSVal.num 1)]) "user_id" = JSVal.str "u1"
    ∧ (hasOwn [("id", JSVal.str "e1"), ("user_id", JSVal.str "u2")] "id" = true →
        objGet (UseCreateEntity.newEntityFor "f1" (some "u1")
            [("id", JSVal.str "e1"), ("user_id", JSVal.str "u2")] JSVal.undef) "id"
          = objGet [("id", JSVal.str "e1"), ("user_id", JSVal.str "u2")] "id")
    ∧ (hasOwn [("id", JSVal.str "e1"), ("user_id", JSVal.str "u2")] "id" = false →
        objGet (UseCreateEntity.newEntityFor "f1" (some "u1")
            [("id", JSVal.str "e1"), ("user_id", JSVal.str "u2")] JSVal.undef) "id"
          = JSVal.str "f1") :=
  createEntity_user_id_overridden_id_preserved "f1" "u1"
    [("id", JSVal.str "e1"), ("user_id", JSVal.str "u2")] [("x", JSVal.num 1)]
    JSVal.undef (by decide)
